import Mathlib

/-!
Verification of the fitness-tracker module (`homework.py`).

The program computes distance, mean speed and burned calories for three
training kinds (Running, SportsWalking, Swimming) and renders a fixed-format
summary line.  Python floats are modelled by exact rationals (ℚ); Python's
float floor division `//` is Int.floor of the rational quotient; a method
that raises is modelled with `Except`.
-/

namespace Fitness

/-- Errors a training method can raise.  `notImplementedError` models the
Python NotImplementedError raised by the base class's get_spent_calories. -/
inductive PyError where
  | notImplementedError
deriving DecidableEq, Repr

/-- The dataclass InfoMessage: computed results for one workout. -/
structure InfoMessage where
  training_type : String
  duration : ℚ
  distance : ℚ
  speed : ℚ
  calories : ℚ
deriving DecidableEq, Repr

/-- The Training class hierarchy as a closed sum: the base class `Training`
(instantiable in Python) and its three subclasses.  Constructor arguments
mirror each Python constructor's positional parameters. -/
inductive Training where
  | base (action duration weight : ℚ)
  | running (action duration weight : ℚ)
  | walking (action duration weight height : ℚ)
  | swimming (action duration weight length_pool count_pool : ℚ)
deriving DecidableEq, Repr

namespace Training

/-- Field `self.action`, set in Training.__init__. -/
def action : Training → ℚ
  | base a _ _ => a
  | running a _ _ => a
  | walking a _ _ _ => a
  | swimming a _ _ _ _ => a

/-- Field `self.duration` (hours), set in Training.__init__. -/
def duration : Training → ℚ
  | base _ d _ => d
  | running _ d _ => d
  | walking _ d _ _ => d
  | swimming _ d _ _ _ => d

/-- Field `self.weight` (kg), set in Training.__init__. -/
def weight : Training → ℚ
  | base _ _ w => w
  | running _ _ w => w
  | walking _ _ w _ => w
  | swimming _ _ w _ _ => w

/-- Field `self.height`, set only in SportsWalking.__init__ (0 elsewhere;
it is only ever read on walking instances). -/
def height : Training → ℚ
  | walking _ _ _ h => h
  | _ => 0

/-- Field `self.length_pool`, set only in Swimming.__init__. -/
def length_pool : Training → ℚ
  | swimming _ _ _ l _ => l
  | _ => 0

/-- Field `self.count_pool`, set only in Swimming.__init__. -/
def count_pool : Training → ℚ
  | swimming _ _ _ _ c => c
  | _ => 0

/-- Field `self.dur_minutes = duration * 60`, set in Training.__init__. -/
def dur_minutes (t : Training) : ℚ := t.duration * 60

/-- Class constant M_IN_KM = 1000. -/
def M_IN_KM : ℚ := 1000

/-- Class constant LEN_STEP: 0.65 m, overridden to 1.38 m in Swimming. -/
def LEN_STEP : Training → ℚ
  | swimming _ _ _ _ _ => 1.38
  | _ => 0.65

/-- Training.get_distance: `self.action * self.LEN_STEP / self.M_IN_KM`,
inherited unchanged by all three subclasses. -/
def get_distance (t : Training) : ℚ := t.action * t.LEN_STEP / M_IN_KM

/-- get_mean_speed: the base implementation `self.get_distance() / self.duration`
for Training, Running and SportsWalking; Swimming overrides it with
`self.length_pool * self.count_pool / self.M_IN_KM / self.duration`. -/
def get_mean_speed : Training → ℚ
  | swimming _ d _ l c => l * c / M_IN_KM / d
  | t => t.get_distance / t.duration

/-- get_spent_calories: raises NotImplementedError on the base class; each
subclass computes its own formula (Python float `//` is modelled by the
integer floor of the rational quotient, cast back to ℚ). -/
def get_spent_calories : Training → Except PyError ℚ
  | base _ _ _ => .error .notImplementedError
  | t@(running _ _ _) =>
      .ok ((18 * t.get_mean_speed - 20) * t.weight / M_IN_KM * t.dur_minutes)
  | t@(walking _ _ _ h) =>
      .ok ((0.035 * t.weight
            + ((⌊t.get_mean_speed ^ 2 / h⌋ : ℤ) : ℚ) * (0.029 * t.weight))
           * t.dur_minutes)
  | t@(swimming _ _ _ _ _) =>
      .ok ((t.get_mean_speed + 1.1) * 2 * t.weight)

/-- Python's type(self).__name__ for each constructor. -/
def typeName : Training → String
  | base _ _ _ => "Training"
  | running _ _ _ => "Running"
  | walking _ _ _ _ => "SportsWalking"
  | swimming _ _ _ _ _ => "Swimming"

/-- show_training_info: builds the InfoMessage; the NotImplementedError from
get_spent_calories on a base instance propagates. -/
def show_training_info (t : Training) : Except PyError InfoMessage :=
  t.get_spent_calories.map
    (fun cal => ⟨t.typeName, t.duration, t.get_distance, t.get_mean_speed, cal⟩)

end Training

/-! ### Fixed-point formatting with three decimals

Models Python's standard fixed-point formatting `"{:.3f}".format(x)` on the
exact rational value: round to the nearest thousandth (ties to even) and
render with exactly three digits after the decimal point. -/

/-- The decimal digit character for a digit 0–9 (9 for anything larger,
which never occurs in our uses). -/
def digitChar (n : Nat) : Char :=
  if n = 0 then '0' else if n = 1 then '1' else if n = 2 then '2'
  else if n = 3 then '3' else if n = 4 then '4' else if n = 5 then '5'
  else if n = 6 then '6' else if n = 7 then '7' else if n = 8 then '8'
  else '9'

/-- Three-digit zero-padded rendering of a number of thousandths (< 1000). -/
def pad3 (n : Nat) : String :=
  ⟨[digitChar (n / 100), digitChar (n / 10 % 10), digitChar (n % 10)]⟩

/-- Round to the nearest integer, ties to even (Python's float formatting
rounds to nearest, half to even). -/
def roundHalfEven (q : ℚ) : ℤ :=
  if q - ⌊q⌋ < 1 / 2 then ⌊q⌋
  else if 1 / 2 < q - ⌊q⌋ then ⌊q⌋ + 1
  else if ⌊q⌋ % 2 = 0 then ⌊q⌋ else ⌊q⌋ + 1

/-- The integer part (with sign) of a value given as a number of
thousandths. -/
def intPart3f (m : ℤ) : String :=
  (if m < 0 then "-" else "") ++ toString (m.natAbs / 1000)

/-- The three-digit fractional part of a value given as a number of
thousandths. -/
def frac3f (m : ℤ) : String := pad3 (m.natAbs % 1000)

/-- Fixed-point rendering of q with exactly three decimals (`"{:.3f}"`). -/
def format3f (q : ℚ) : String :=
  intPart3f (roundHalfEven (q * 1000)) ++ "." ++ frac3f (roundHalfEven (q * 1000))

/-- InfoMessage.get_message: the class template
`'Тип тренировки: {0}; Длительность: {1:.3f} ч.; Дистанция: {2:.3f} км; Ср. скорость: {3:.3f} км/ч; Потрачено ккал: {4:.3f}.'`
filled with the five fields. -/
def InfoMessage.get_message (m : InfoMessage) : String :=
  "Тип тренировки: " ++ m.training_type
    ++ "; Длительность: " ++ format3f m.duration
    ++ " ч.; Дистанция: " ++ format3f m.distance
    ++ " км; Ср. скорость: " ++ format3f m.speed
    ++ " км/ч; Потрачено ккал: " ++ format3f m.calories ++ "."

/-- The formatter contract as the spec words it (section 4.2): the English
fixed template with the same three-decimal numeric rendering.  Kept separate
from the source-derived `InfoMessage.get_message` for comparison. -/
def spec_get_message (m : InfoMessage) : String :=
  "Training type: " ++ m.training_type
    ++ "; Duration: " ++ format3f m.duration
    ++ " h.; Distance: " ++ format3f m.distance
    ++ " km; Avg speed: " ++ format3f m.speed
    ++ " km/h; Calories burned: " ++ format3f m.calories ++ "."

/-! ### Dispatcher -/

/-- What a call to read_package can do: return a Training instance, return a
plain string (the unknown-code branch returns a Russian message string rather
than raising), or raise the TypeError Python produces when the positional
argument list does not match the selected constructor's arity — the spec's
InvalidArguments error condition. -/
inductive ReadResult where
  | training (t : Training)
  | stringValue (s : String)
  | invalidArguments
deriving DecidableEq, Repr

/-- read_package: looks the workout code up in the dict
{SWM ↦ Swimming, RUN ↦ Running, WLK ↦ SportsWalking} and applies the
constructor to the unpacked data list; a list whose length does not match the
constructor raises (invalidArguments); an unknown code returns the string
'В базе отсутствует принятый код тренировки'. -/
def read_package (workout_type : String) (data : List ℚ) : ReadResult :=
  if workout_type = "SWM" then
    match data with
    | [a, d, w, l, c] => .training (.swimming a d w l c)
    | _ => .invalidArguments
  else if workout_type = "RUN" then
    match data with
    | [a, d, w] => .training (.running a d w)
    | _ => .invalidArguments
  else if workout_type = "WLK" then
    match data with
    | [a, d, w, h] => .training (.walking a d w h)
    | _ => .invalidArguments
  else
    .stringValue "В базе отсутствует принятый код тренировки"

/-! ### State-passing method translations

To settle the frame claim (no method mutates the instance), each method body
is re-translated in state-passing style: a Python method receives `self` and
may reassign fields, so its translation returns the result paired with the
instance after the call.  None of the bodies contains a field assignment, so
each translation returns its input state. -/

namespace Training

/-- Training.get_distance in state-passing form. -/
def get_distance_st (t : Training) : ℚ × Training :=
  (t.action * t.LEN_STEP / M_IN_KM, t)

/-- get_mean_speed in state-passing form (base body calls get_distance on
self, then reads self.duration; Swimming's override only reads fields). -/
def get_mean_speed_st (t : Training) : ℚ × Training :=
  match t with
  | swimming _ d _ l c => (l * c / M_IN_KM / d, t)
  | _ =>
      let (dist, t1) := get_distance_st t
      (dist / t1.duration, t1)

/-- get_spent_calories in state-passing form. -/
def get_spent_calories_st (t : Training) : Except PyError ℚ × Training :=
  match t with
  | base _ _ _ => (.error .notImplementedError, t)
  | running _ _ _ =>
      let (v, t1) := get_mean_speed_st t
      (.ok ((18 * v - 20) * t1.weight / M_IN_KM * t1.dur_minutes), t1)
  | walking _ _ _ _ =>
      let (v, t1) := get_mean_speed_st t
      (.ok ((0.035 * t1.weight
             + ((⌊v ^ 2 / t1.height⌋ : ℤ) : ℚ) * (0.029 * t1.weight))
            * t1.dur_minutes), t1)
  | swimming _ _ _ _ _ =>
      let (v, t1) := get_mean_speed_st t
      (.ok ((v + 1.1) * 2 * t1.weight), t1)

/-- show_training_info in state-passing form: evaluates the constructor
arguments (distance, speed, calories) in sequence, threading the instance. -/
def show_training_info_st (t : Training) : Except PyError InfoMessage × Training :=
  let (d, t1) := get_distance_st t
  let (s, t2) := get_mean_speed_st t1
  let (c, t3) := get_spent_calories_st t2
  match c with
  | .ok cal => (.ok ⟨t3.typeName, t3.duration, d, s, cal⟩, t3)
  | .error e => (.error e, t3)

end Training

/-! ### Helper lemmas on the formatter -/

/-- A string consisting of an integer part, a point, and exactly three
decimal digits. -/
def threeDecimals (s : String) : Prop :=
  ∃ ip fr : String, s = ip ++ "." ++ fr ∧ fr.length = 3 ∧ ∀ ch ∈ fr.data, ch.isDigit

theorem digitChar_isDigit (n : Nat) : (digitChar n).isDigit := by
  unfold digitChar
  split_ifs <;> decide

theorem pad3_digits (n : Nat) : ∀ ch ∈ (pad3 n).data, ch.isDigit := by
  intro ch hch
  simp only [pad3, String.data, List.mem_cons, List.not_mem_nil, or_false] at hch
  rcases hch with h | h | h <;> subst h <;> exact digitChar_isDigit _

theorem format3f_threeDecimals (q : ℚ) : threeDecimals (format3f q) :=
  ⟨intPart3f (roundHalfEven (q * 1000)), frac3f (roundHalfEven (q * 1000)),
   rfl, rfl, pad3_digits _⟩

theorem format3f_one : format3f 1 = "1.000" := by
  have h : roundHalfEven ((1 : ℚ) * 1000) = 1000 := by norm_num [roundHalfEven]
  unfold format3f
  rw [h]
  decide

theorem format3f_sample_distance : format3f 0.9936 = "0.994" := by
  have h : roundHalfEven ((0.9936 : ℚ) * 1000) = 994 := by norm_num [roundHalfEven]
  unfold format3f
  rw [h]
  decide

theorem format3f_sample_calories : format3f 336 = "336.000" := by
  have h : roundHalfEven ((336 : ℚ) * 1000) = 336000 := by norm_num [roundHalfEven]
  unfold format3f
  rw [h]
  decide

/-! ### Claim theorems -/

/-- C1 (code behavior at the failing input): for an unknown workout code such
as "XYZ" and any argument list, read_package does NOT fail — it returns the
plain string 'В базе отсутствует принятый код тренировки' as its result value,
contradicting the spec's corrected contract (fail with UnknownWorkoutCode,
never return a string). -/
theorem read_package_unknown_code_behavior (data : List ℚ) :
    read_package "XYZ" data
      = .stringValue "В базе отсутствует принятый код тренировки" := rfl

/-- C2: for a SportsWalking training with positive duration and height, the
calories equal (0.035*weight + ⌊mean_speed² / height⌋ * 0.029*weight) *
(duration*60), with the inner term an integer floor division.  The code
stores the height argument unchanged (documented in-source as meters), so
the spec's height_m is the stored height field. -/
theorem walking_calories_floor_formula (a d w h : ℚ) (hd : 0 < d) (hh : 0 < h) :
    (Training.walking a d w h).get_spent_calories
      = .ok ((0.035 * w
              + ((⌊(Training.walking a d w h).get_mean_speed ^ 2 / h⌋ : ℤ) : ℚ)
                  * 0.029 * w) * (d * 60)) := by
  simp only [Training.get_spent_calories, Training.weight, Training.dur_minutes,
    Training.duration, Except.ok.injEq]
  ring

theorem walking_calories_floor_formula_witness :
    (0 : ℚ) < 1 ∧ (0 : ℚ) < 180
    ∧ (Training.walking 9000 1 75 180).get_spent_calories
        = .ok ((0.035 * 75
                + ((⌊(Training.walking 9000 1 75 180).get_mean_speed ^ 2 / 180⌋ : ℤ) : ℚ)
                    * 0.029 * 75) * (1 * 60)) :=
  ⟨by norm_num, by norm_num,
   walking_calories_floor_formula 9000 1 75 180 (by norm_num) (by norm_num)⟩

/-- C3 (counterexample): at the sample input action=15000, duration=1 h,
weight=75 kg, the code's Running calories are 699.75, not the 648.45 the
claim asserts — (18*9.75 − 20)*75/1000*60 = 699.75. -/
theorem running_sample_calories_value :
    (Training.running 15000 1 75).get_spent_calories = .ok 699.75
    ∧ (699.75 : ℚ) ≠ 648.45 := by
  constructor
  · simp only [Training.get_spent_calories, Training.get_mean_speed,
      Training.get_distance, Training.dur_minutes, Training.duration,
      Training.weight, Training.action, Training.LEN_STEP, Training.M_IN_KM,
      Except.ok.injEq]
    norm_num
  · norm_num

/-- C3 (amended): Running's distance is action*0.65/1000, mean speed is
distance/duration, calories are (18*speed − 20)*weight/1000*(duration*60);
at action=15000, duration=1, weight=75 this gives distance 9.75 km,
speed 9.75 km/h and calories 699.75 (not 648.45). -/
theorem running_formulas (a d w : ℚ) (hd : 0 < d) :
    (Training.running a d w).get_distance = a * 0.65 / 1000
    ∧ (Training.running a d w).get_mean_speed
        = (Training.running a d w).get_distance / d
    ∧ (Training.running a d w).get_spent_calories
        = .ok ((18 * (Training.running a d w).get_mean_speed - 20) * w / 1000
                * (d * 60))
    ∧ (Training.running 15000 1 75).get_distance = 9.75
    ∧ (Training.running 15000 1 75).get_mean_speed = 9.75
    ∧ (Training.running 15000 1 75).get_spent_calories = .ok 699.75 := by
  refine ⟨rfl, rfl, rfl, ?_, ?_, ?_⟩ <;>
  · simp only [Training.get_spent_calories, Training.get_mean_speed,
      Training.get_distance, Training.dur_minutes, Training.duration,
      Training.weight, Training.action, Training.LEN_STEP, Training.M_IN_KM,
      Except.ok.injEq]
    norm_num

theorem running_formulas_witness :
    (0 : ℚ) < 1
    ∧ ((Training.running 15000 1 75).get_distance = 15000 * 0.65 / 1000
       ∧ (Training.running 15000 1 75).get_mean_speed
           = (Training.running 15000 1 75).get_distance / 1
       ∧ (Training.running 15000 1 75).get_spent_calories
           = .ok ((18 * (Training.running 15000 1 75).get_mean_speed - 20) * 75 / 1000
                   * (1 * 60))
       ∧ (Training.running 15000 1 75).get_distance = 9.75
       ∧ (Training.running 15000 1 75).get_mean_speed = 9.75
       ∧ (Training.running 15000 1 75).get_spent_calories = .ok 699.75) :=
  ⟨by norm_num, running_formulas 15000 1 75 (by norm_num)⟩

/-- C4: Swimming's mean speed is length_pool*count_pool/1000/duration, its
distance is action*1.38/1000 and its calories are (speed + 1.1)*2*weight;
at the sample 720, 1 h, 80 kg, 25 m, 40 lengths this gives distance
0.9936 km, speed 1.0 km/h and calories 336.0. -/
theorem swimming_formulas (a d w l c : ℚ) (hd : 0 < d) :
    (Training.swimming a d w l c).get_mean_speed = l * c / 1000 / d
    ∧ (Training.swimming a d w l c).get_distance = a * 1.38 / 1000
    ∧ (Training.swimming a d w l c).get_spent_calories
        = .ok (((Training.swimming a d w l c).get_mean_speed + 1.1) * 2 * w)
    ∧ (Training.swimming 720 1 80 25 40).get_distance = 0.9936
    ∧ (Training.swimming 720 1 80 25 40).get_mean_speed = 1
    ∧ (Training.swimming 720 1 80 25 40).get_spent_calories = .ok 336 := by
  refine ⟨rfl, rfl, rfl, ?_, ?_, ?_⟩ <;>
  · simp only [Training.get_spent_calories, Training.get_mean_speed,
      Training.get_distance, Training.duration, Training.weight,
      Training.action, Training.LEN_STEP, Training.M_IN_KM, Except.ok.injEq]
    norm_num

theorem swimming_formulas_witness :
    (0 : ℚ) < 1
    ∧ ((Training.swimming 720 1 80 25 40).get_mean_speed = 25 * 40 / 1000 / 1
       ∧ (Training.swimming 720 1 80 25 40).get_distance = 720 * 1.38 / 1000
       ∧ (Training.swimming 720 1 80 25 40).get_spent_calories
           = .ok (((Training.swimming 720 1 80 25 40).get_mean_speed + 1.1) * 2 * 80)
       ∧ (Training.swimming 720 1 80 25 40).get_distance = 0.9936
       ∧ (Training.swimming 720 1 80 25 40).get_mean_speed = 1
       ∧ (Training.swimming 720 1 80 25 40).get_spent_calories = .ok 336) :=
  ⟨by norm_num, swimming_formulas 720 1 80 25 40 (by norm_num)⟩

/-- C5 (counterexample): for the Swimming sample 720, 1 h, 80 kg, 25 m, 40,
get_mean_speed is 1.0 while get_distance / duration is 0.9936, so mean speed
is not distance divided by duration for Swimming. -/
theorem swimming_speed_not_distance_over_duration :
    (Training.swimming 720 1 80 25 40).get_mean_speed = 1
    ∧ (Training.swimming 720 1 80 25 40).get_distance
        / (Training.swimming 720 1 80 25 40).duration = 0.9936
    ∧ (Training.swimming 720 1 80 25 40).get_mean_speed
        ≠ (Training.swimming 720 1 80 25 40).get_distance
            / (Training.swimming 720 1 80 25 40).duration := by
  refine ⟨?_, ?_, ?_⟩ <;>
    simp only [Training.get_mean_speed, Training.get_distance, Training.duration,
      Training.action, Training.LEN_STEP, Training.M_IN_KM] <;>
    norm_num

/-- C5 (amended): the base implementation used by Running and SportsWalking
(and the base class) returns distance/duration, while Swimming overrides
mean speed to length_pool*count_pool/1000/duration, which is not in general
distance/duration. -/
theorem mean_speed_by_kind (a d w h l c : ℚ) (hd : 0 < d) :
    (Training.running a d w).get_mean_speed
        = (Training.running a d w).get_distance / d
    ∧ (Training.walking a d w h).get_mean_speed
        = (Training.walking a d w h).get_distance / d
    ∧ (Training.base a d w).get_mean_speed
        = (Training.base a d w).get_distance / d
    ∧ (Training.swimming a d w l c).get_mean_speed = l * c / 1000 / d :=
  ⟨rfl, rfl, rfl, rfl⟩

theorem mean_speed_by_kind_witness :
    (0 : ℚ) < 1
    ∧ ((Training.running 15000 1 75).get_mean_speed
          = (Training.running 15000 1 75).get_distance / 1
       ∧ (Training.walking 15000 1 75 180).get_mean_speed
           = (Training.walking 15000 1 75 180).get_distance / 1
       ∧ (Training.base 15000 1 75).get_mean_speed
           = (Training.base 15000 1 75).get_distance / 1
       ∧ (Training.swimming 15000 1 75 25 40).get_mean_speed = 25 * 40 / 1000 / 1) :=
  ⟨by norm_num, mean_speed_by_kind 15000 1 75 180 25 40 (by norm_num)⟩

/-- C6 (counterexample): at the Swimming sample record the formatter
produces the Russian-language template line, which differs from the
English-worded template the claim states (rendered here by
spec_get_message with the same numeric formatting). -/
theorem get_message_not_spec_template :
    InfoMessage.get_message ⟨"Swimming", 1, 0.9936, 1, 336⟩
        = "Тип тренировки: Swimming; Длительность: 1.000 ч.; Дистанция: 0.994 км; Ср. скорость: 1.000 км/ч; Потрачено ккал: 336.000."
    ∧ InfoMessage.get_message ⟨"Swimming", 1, 0.9936, 1, 336⟩
        ≠ spec_get_message ⟨"Swimming", 1, 0.9936, 1, 336⟩ := by
  constructor
  · simp [InfoMessage.get_message, format3f_one, format3f_sample_distance,
      format3f_sample_calories]
  · simp [InfoMessage.get_message, spec_get_message, format3f_one,
      format3f_sample_distance, format3f_sample_calories]

/-- C6 (amended): get_message always produces the single fixed template
'Тип тренировки: {0}; Длительность: {1:.3f} ч.; Дистанция: {2:.3f} км;
Ср. скорость: {3:.3f} км/ч; Потрачено ккал: {4:.3f}.' with every numeric
field rendered in fixed point with exactly three decimal digits. -/
theorem get_message_fixed_template (m : InfoMessage) :
    ∃ s1 s2 s3 s4 : String,
      m.get_message
        = "Тип тренировки: " ++ m.training_type ++ "; Длительность: " ++ s1
            ++ " ч.; Дистанция: " ++ s2 ++ " км; Ср. скорость: " ++ s3
            ++ " км/ч; Потрачено ккал: " ++ s4 ++ "."
      ∧ threeDecimals s1 ∧ threeDecimals s2 ∧ threeDecimals s3 ∧ threeDecimals s4 :=
  ⟨format3f m.duration, format3f m.distance, format3f m.speed, format3f m.calories,
   rfl, format3f_threeDecimals _, format3f_threeDecimals _,
   format3f_threeDecimals _, format3f_threeDecimals _⟩

/-- C7: for each known workout code, an argument list whose length does not
match the selected constructor's arity (3 for RUN, 5 for SWM, 4 for WLK)
makes read_package fail with the InvalidArguments error (the TypeError
Python raises from the mismatched constructor call). -/
theorem read_package_arity_mismatch (code : String) (data : List ℚ)
    (h : (code = "RUN" ∧ data.length ≠ 3)
         ∨ (code = "SWM" ∧ data.length ≠ 5)
         ∨ (code = "WLK" ∧ data.length ≠ 4)) :
    read_package code data = .invalidArguments := by
  rcases h with ⟨hc, hl⟩ | ⟨hc, hl⟩ | ⟨hc, hl⟩ <;> subst hc <;>
    rcases data with _ | ⟨a, _ | ⟨b, _ | ⟨c, _ | ⟨e, _ | ⟨f, rest⟩⟩⟩⟩⟩ <;>
    simp_all [read_package]

theorem read_package_arity_mismatch_witness :
    (("RUN" = "RUN" ∧ ([15000, 1] : List ℚ).length ≠ 3)
     ∨ ("RUN" = "SWM" ∧ ([15000, 1] : List ℚ).length ≠ 5)
     ∨ ("RUN" = "WLK" ∧ ([15000, 1] : List ℚ).length ≠ 4))
    ∧ read_package "RUN" [15000, 1] = .invalidArguments :=
  ⟨Or.inl ⟨rfl, by decide⟩,
   read_package_arity_mismatch "RUN" [15000, 1] (Or.inl ⟨rfl, by decide⟩)⟩

/-- C8: for every training with positive duration, nonnegative action count
and (for Swimming) nonnegative pool length and pool count, both the distance
and the mean speed are nonnegative. -/
theorem distance_speed_nonneg (t : Training) (hd : 0 < t.duration)
    (ha : 0 ≤ t.action) (hl : 0 ≤ t.length_pool) (hc : 0 ≤ t.count_pool) :
    0 ≤ t.get_distance ∧ 0 ≤ t.get_mean_speed := by
  have hstep : 0 ≤ t.LEN_STEP := by
    cases t <;> simp [Training.LEN_STEP] <;> norm_num
  have hdist : 0 ≤ t.get_distance := by
    have : (0 : ℚ) ≤ Training.M_IN_KM := by norm_num [Training.M_IN_KM]
    exact div_nonneg (mul_nonneg ha hstep) this
  refine ⟨hdist, ?_⟩
  cases t with
  | swimming a d w l c =>
      simp only [Training.get_mean_speed, Training.length_pool,
        Training.count_pool, Training.duration] at *
      exact div_nonneg (div_nonneg (mul_nonneg hl hc) (by norm_num [Training.M_IN_KM])) hd.le
  | base a d w => exact div_nonneg hdist hd.le
  | running a d w => exact div_nonneg hdist hd.le
  | walking a d w h => exact div_nonneg hdist hd.le

theorem distance_speed_nonneg_witness :
    (0 : ℚ) < (Training.swimming 720 1 80 25 40).duration
    ∧ 0 ≤ (Training.swimming 720 1 80 25 40).action
    ∧ 0 ≤ (Training.swimming 720 1 80 25 40).length_pool
    ∧ 0 ≤ (Training.swimming 720 1 80 25 40).count_pool
    ∧ (0 ≤ (Training.swimming 720 1 80 25 40).get_distance
       ∧ 0 ≤ (Training.swimming 720 1 80 25 40).get_mean_speed) :=
  ⟨by norm_num [Training.duration], by norm_num [Training.action],
   by norm_num [Training.length_pool], by norm_num [Training.count_pool],
   distance_speed_nonneg _ (by norm_num [Training.duration])
     (by norm_num [Training.action]) (by norm_num [Training.length_pool])
     (by norm_num [Training.count_pool])⟩

/-- C9: no method mutates the instance: in the state-passing translation,
get_distance, get_mean_speed, get_spent_calories and show_training_info all
return the training record unchanged, and their results coincide with the
pure functions of the constructor inputs. -/
theorem methods_preserve_instance (t : Training) :
    ((t.get_distance_st).2 = t
     ∧ (t.get_mean_speed_st).2 = t
     ∧ (t.get_spent_calories_st).2 = t
     ∧ (t.show_training_info_st).2 = t)
    ∧ ((t.get_distance_st).1 = t.get_distance
       ∧ (t.get_mean_speed_st).1 = t.get_mean_speed
       ∧ (t.get_spent_calories_st).1 = t.get_spent_calories
       ∧ (t.show_training_info_st).1 = t.show_training_info) := by
  cases t <;>
    simp [Training.get_distance_st, Training.get_mean_speed_st,
      Training.get_spent_calories_st, Training.show_training_info_st,
      Training.get_distance, Training.get_mean_speed,
      Training.get_spent_calories, Training.show_training_info, Except.map,
      Training.action, Training.duration, Training.weight, Training.height,
      Training.length_pool, Training.count_pool, Training.dur_minutes,
      Training.LEN_STEP, Training.M_IN_KM, Training.typeName]

/-- C10: on an instance of the base Training class, get_spent_calories
raises NotImplementedError, and therefore show_training_info (which calls
it) raises as well, so only the three subclasses produce a summary. -/
theorem base_training_not_implemented (a d w : ℚ) :
    (Training.base a d w).get_spent_calories = .error .notImplementedError
    ∧ (Training.base a d w).show_training_info = .error .notImplementedError :=
  ⟨rfl, rfl⟩

end Fitness
